import Mathlib

/-
  Verification of the session / route-authorization layer of the
  dummy-frontend repository.

  The embedding follows `src/lib/auth.ts` (the `auth` object over
  `window.localStorage`) and `src/app/dashboard/page.tsx` (the dashboard
  route guard in its `useEffect`, and `handleSendEmail`).

  `localStorage` is modelled as a total map from string keys to optionally
  present string values; the `typeof window !== 'undefined'` guard of every
  `auth` operation is modelled by an explicit `hasWindow : Bool` argument.
  `JSON.parse` / `JSON.stringify` are modelled by an executable JSON codec
  below (the number grammar is simplified to optionally-signed integers;
  the application only ever stores objects whose values are strings).
-/

namespace DummyFrontend

/-- Model of `window.localStorage`: a total map from string keys to
optionally present string values. -/
abbrev Storage := String → Option String

/-- A storage holding no entries. -/
def emptyStorage : Storage := fun _ => none

/-- `localStorage.getItem(k)`: the stored value, or `none` for JS `null`. -/
def getItem (st : Storage) (k : String) : Option String := st k

/-- `localStorage.setItem(k, v)`. -/
def setItem (st : Storage) (k v : String) : Storage :=
  fun q => if q = k then some v else st q

/-- `localStorage.removeItem(k)`. -/
def removeItem (st : Storage) (k : String) : Storage :=
  fun q => if q = k then none else st q

/-- The `User` interface of `src/types/user.ts`. -/
structure User where
  id : String
  name : String
  email : String
  role : String
  orgId : String

/-- The user of spec Scenario A, used as a concrete test input. -/
def demoUser : User :=
  { id := "u1", name := "A", email := "a@b.com", role := "user", orgId := "org1" }

/-! ### JSON values and the codec modelling `JSON.stringify` / `JSON.parse` -/

/-- A JSON value.  Numbers are modelled as integers (see header comment). -/
inductive Json where
  | null
  | bool (b : Bool)
  | num (n : Int)
  | str (s : String)
  | arr (elems : List Json)
  | obj (fields : List (String × Json))

/-- The double-quote character. -/
def quoteC : Char := Char.ofNat 34

/-- The backslash character. -/
def backslashC : Char := Char.ofNat 92

/-- The opening-brace character of a JSON object. -/
def lbraceC : Char := Char.ofNat 123

/-- The closing-brace character of a JSON object. -/
def rbraceC : Char := Char.ofNat 125

/-- The opening-bracket character of a JSON array. -/
def lbrackC : Char := Char.ofNat 91

/-- The closing-bracket character of a JSON array. -/
def rbrackC : Char := Char.ofNat 93

/-- Lower-case hexadecimal digit for `n < 16`. -/
def hexDigitChar (n : Nat) : Char :=
  if n < 10 then Char.ofNat (48 + n) else Char.ofNat (87 + n)

/-- Escape one character of a JSON string literal the way `JSON.stringify`
does: short escapes for quote, backslash, backspace, tab, newline, form
feed and carriage return, `\u00xx` for the remaining control characters,
and every other character verbatim. -/
def escapeChar (c : Char) : List Char :=
  if c = quoteC then [backslashC, quoteC]
  else if c = backslashC then [backslashC, backslashC]
  else if c.toNat = 8 then [backslashC, 'b']
  else if c.toNat = 9 then [backslashC, 't']
  else if c.toNat = 10 then [backslashC, 'n']
  else if c.toNat = 12 then [backslashC, 'f']
  else if c.toNat = 13 then [backslashC, 'r']
  else if c.toNat < 32 then
    [backslashC, 'u', '0', '0', hexDigitChar (c.toNat / 16), hexDigitChar (c.toNat % 16)]
  else [c]

/-- Escape a whole character list. -/
def escapeList : List Char → List Char
  | [] => []
  | c :: cs => escapeChar c ++ escapeList cs

/-- The characters of the JSON string literal for `s`, quotes included. -/
def quoteChars (s : String) : List Char :=
  quoteC :: (escapeList s.data ++ [quoteC])

/-- Serialized fields of a flat JSON object whose values are strings,
exactly as `JSON.stringify` prints them (no whitespace). -/
def strFieldsChars : List (String × String) → List Char
  | [] => []
  | [(k, v)] => quoteChars k ++ ':' :: quoteChars v
  | (k, v) :: fs => quoteChars k ++ ':' :: quoteChars v ++ ',' :: strFieldsChars fs

/-- `JSON.stringify(user)` for a `User` value: a flat object with the five
string fields in interface order. -/
def userStringify (u : User) : String :=
  ⟨lbraceC :: (strFieldsChars
      [("id", u.id), ("name", u.name), ("email", u.email),
       ("role", u.role), ("orgId", u.orgId)] ++ [rbraceC])⟩

/-- The JSON value `JSON.parse` reconstructs from `userStringify u`. -/
def userToJson (u : User) : Json :=
  .obj [("id", .str u.id), ("name", .str u.name), ("email", .str u.email),
        ("role", .str u.role), ("orgId", .str u.orgId)]

/-- Numeric value of one hexadecimal digit, if any. -/
def hexVal (c : Char) : Option Nat :=
  if 48 ≤ c.toNat ∧ c.toNat ≤ 57 then some (c.toNat - 48)
  else if 97 ≤ c.toNat ∧ c.toNat ≤ 102 then some (c.toNat - 87)
  else if 65 ≤ c.toNat ∧ c.toNat ≤ 70 then some (c.toNat - 55)
  else none

/-- Parse the body of a JSON string literal (the opening quote already
consumed), returning the decoded characters and the remaining input. -/
def parseStringBody : List Char → Option (List Char × List Char)
  | [] => none
  | c :: cs =>
    if c = quoteC then some ([], cs)
    else if c = backslashC then
      match cs with
      | [] => none
      | e :: cs2 =>
        if e = quoteC then (parseStringBody cs2).map (fun p => (quoteC :: p.1, p.2))
        else if e = backslashC then (parseStringBody cs2).map (fun p => (backslashC :: p.1, p.2))
        else if e = '/' then (parseStringBody cs2).map (fun p => ('/' :: p.1, p.2))
        else if e = 'b' then (parseStringBody cs2).map (fun p => (Char.ofNat 8 :: p.1, p.2))
        else if e = 't' then (parseStringBody cs2).map (fun p => (Char.ofNat 9 :: p.1, p.2))
        else if e = 'n' then (parseStringBody cs2).map (fun p => (Char.ofNat 10 :: p.1, p.2))
        else if e = 'f' then (parseStringBody cs2).map (fun p => (Char.ofNat 12 :: p.1, p.2))
        else if e = 'r' then (parseStringBody cs2).map (fun p => (Char.ofNat 13 :: p.1, p.2))
        else if e = 'u' then
          match cs2 with
          | d1 :: d2 :: d3 :: d4 :: cs3 =>
            match hexVal d1, hexVal d2, hexVal d3, hexVal d4 with
            | some a, some b, some c2, some d =>
              (parseStringBody cs3).map
                (fun p => (Char.ofNat (4096 * a + 256 * b + 16 * c2 + d) :: p.1, p.2))
            | _, _, _, _ => none
          | _ => none
        else none
    else (parseStringBody cs).map (fun p => (c :: p.1, p.2))

/-- JSON whitespace. -/
def isWsChar (c : Char) : Bool :=
  c = ' ' || c = Char.ofNat 9 || c = Char.ofNat 10 || c = Char.ofNat 13

/-- Drop leading JSON whitespace. -/
def skipWs : List Char → List Char
  | [] => []
  | c :: cs => if isWsChar c then skipWs cs else c :: cs

/-- Decimal value of a digit list. -/
def digitsVal : List Char → Nat → Nat
  | [], acc => acc
  | c :: cs, acc => digitsVal cs (acc * 10 + (c.toNat - 48))

/-- Split off a maximal run of decimal digits. -/
def takeDigits : List Char → List Char × List Char
  | [] => ([], [])
  | c :: cs =>
    if c.isDigit then
      let p := takeDigits cs
      (c :: p.1, p.2)
    else ([], c :: cs)

/-- Fuel-indexed recursive-descent JSON parser: value, array elements and
object members.  Defined as a single structural recursion on the fuel so
that all three components reduce definitionally. -/
def parsers : Nat →
    ((List Char → Option (Json × List Char)) ×
     (List Char → Option (List Json × List Char)) ×
     (List Char → Option (List (String × Json) × List Char)))
  | 0 => (fun _ => none, fun _ => none, fun _ => none)
  | f + 1 =>
    let P := parsers f
    (fun input =>
      match skipWs input with
      | [] => none
      | c :: cs =>
        if c = 'n' then
          match cs with
          | 'u' :: 'l' :: 'l' :: r => some (.null, r)
          | _ => none
        else if c = 't' then
          match cs with
          | 'r' :: 'u' :: 'e' :: r => some (.bool true, r)
          | _ => none
        else if c = 'f' then
          match cs with
          | 'a' :: 'l' :: 's' :: 'e' :: r => some (.bool false, r)
          | _ => none
        else if c = quoteC then
          match parseStringBody cs with
          | some (l, r) => some (.str ⟨l⟩, r)
          | none => none
        else if c = lbrackC then
          match skipWs cs with
          | [] => none
          | c2 :: r2 =>
            if c2 = rbrackC then some (.arr [], r2)
            else
              match P.2.1 (c2 :: r2) with
              | some (xs, r) => some (.arr xs, r)
              | none => none
        else if c = lbraceC then
          match skipWs cs with
          | [] => none
          | c2 :: r2 =>
            if c2 = rbraceC then some (.obj [], r2)
            else
              match P.2.2 (c2 :: r2) with
              | some (fs, r) => some (.obj fs, r)
              | none => none
        else if c = '-' then
          match takeDigits cs with
          | ([], _) => none
          | (ds, r) => some (.num (-(digitsVal ds 0 : Int)), r)
        else if c.isDigit then
          match takeDigits (c :: cs) with
          | (ds, r) => some (.num (digitsVal ds 0 : Int), r)
        else none,
     fun input =>
      match P.1 input with
      | none => none
      | some (v, r1) =>
        match skipWs r1 with
        | [] => none
        | c :: r2 =>
          if c = ',' then
            match P.2.1 r2 with
            | some (xs, r3) => some (v :: xs, r3)
            | none => none
          else if c = rbrackC then some ([v], r2)
          else none,
     fun input =>
      match skipWs input with
      | [] => none
      | c :: cs =>
        if c = quoteC then
          match parseStringBody cs with
          | none => none
          | some (k, r1) =>
            match skipWs r1 with
            | [] => none
            | c2 :: r2 =>
              if c2 = ':' then
                match P.1 r2 with
                | none => none
                | some (v, r3) =>
                  match skipWs r3 with
                  | [] => none
                  | c3 :: r4 =>
                    if c3 = ',' then
                      match P.2.2 r4 with
                      | some (fs, r5) => some ((⟨k⟩, v) :: fs, r5)
                      | none => none
                    else if c3 = rbraceC then some ([(⟨k⟩, v)], r4)
                    else none
              else none
        else none)

/-- Parse one JSON value. -/
def parseValue (f : Nat) (input : List Char) : Option (Json × List Char) :=
  (parsers f).1 input

/-- Parse the elements of a JSON array after the opening bracket. -/
def parseElems (f : Nat) (input : List Char) : Option (List Json × List Char) :=
  (parsers f).2.1 input

/-- Parse the members of a JSON object after the opening brace. -/
def parseMembers (f : Nat) (input : List Char) : Option (List (String × Json) × List Char) :=
  (parsers f).2.2 input

/-- Model of `JSON.parse`: `some` of the value on well-formed input that
is fully consumed (up to trailing whitespace), `none` where the real
`JSON.parse` throws a `SyntaxError`. -/
def jsonParse (s : String) : Option Json :=
  match parseValue (2 * s.data.length + 16) s.data with
  | some (v, r) => if skipWs r = [] then some v else none
  | none => none

/-- JavaScript truthiness of a JSON value (`null`, `false`, `0` and the
empty string are falsy; arrays and objects are truthy). -/
def jsTruthy : Json → Bool
  | .null => false
  | .bool b => b
  | .num n => decide (n ≠ 0)
  | .str s => decide (s ≠ "")
  | .arr _ => true
  | .obj _ => true

/-! ### The `auth` object of `src/lib/auth.ts`

Every operation is guarded by `typeof window !== 'undefined'`, modelled by
the `w : Bool` argument: with `w = false` reads return `none` and writes
leave the storage unchanged. -/

/-- `auth.setToken`. -/
def setToken (w : Bool) (st : Storage) (token : String) : Storage :=
  if w then setItem st "token" token else st

/-- `auth.getToken`. -/
def getToken (w : Bool) (st : Storage) : Option String :=
  if w then getItem st "token" else none

/-- `auth.removeToken`. -/
def removeToken (w : Bool) (st : Storage) : Storage :=
  if w then removeItem st "token" else st

/-- `auth.setUser`: stores `JSON.stringify(user)`. -/
def setUser (w : Bool) (st : Storage) (user : User) : Storage :=
  if w then setItem st "user" (userStringify user) else st

/-- `auth.getUser`: reads the stored entry; a missing or empty-string entry
is falsy and yields `null` (`.ok none`), otherwise the entry is fed to
`JSON.parse`, whose `SyntaxError` on malformed input propagates out of the
read (`.error`). -/
def getUser (w : Bool) (st : Storage) : Except String (Option Json) :=
  if w then
    match getItem st "user" with
    | none => .ok none
    | some s =>
      if s = "" then .ok none
      else
        match jsonParse s with
        | some j => .ok (some j)
        | none => .error "SyntaxError"
  else .ok none

/-- `auth.removeUser`. -/
def removeUser (w : Bool) (st : Storage) : Storage :=
  if w then removeItem st "user" else st

/-- `auth.logout`: `removeToken` then `removeUser`. -/
def logout (w : Bool) (st : Storage) : Storage :=
  removeUser w (removeToken w st)

/-- `auth.isAuthenticated`: `!!auth.getToken()` — true exactly on a stored
token that is a non-empty string. -/
def isAuthenticated (w : Bool) (st : Storage) : Bool :=
  match getToken w st with
  | some t => decide (t ≠ "")
  | none => false

/-- The composite session-establishing operation of the spec,
`setToken(c); setUser(p)` (the login page that performs it on a successful
login is not part of `src/`; the composition is exactly the claim's
`establish`). -/
def establish (w : Bool) (st : Storage) (c : String) (p : User) : Storage :=
  setUser w (setToken w st c) p

/-! ### The route guard -/

/-- A route-guard decision. -/
inductive Decision where
  | allow
  | redirectToLogin
  | redirectToHome
  deriving DecidableEq

/-- Is `pre` a prefix of `s` (on character lists)? -/
def startsWithChars : List Char → List Char → Bool
  | [], _ => true
  | _ :: _, [] => false
  | c :: cs, d :: ds => c = d && startsWithChars cs ds

/-- The protected-path set of the spec: `/dashboard` and `/dashboard/*`. -/
def isProtectedPath (p : String) : Bool :=
  p = "/dashboard" || startsWithChars "/dashboard/".data p.data

/-- The dashboard page's guard (`useEffect` of `DashboardPage`):
`auth.getUser()` falsy redirects to `/login`, truthy renders; a
`SyntaxError` escaping `getUser` crashes the effect (`.error`). -/
def dashboardGuard (w : Bool) (st : Storage) : Except String Decision :=
  match getUser w st with
  | .error e => .error e
  | .ok none => .ok .redirectToLogin
  | .ok (some j) => if jsTruthy j then .ok .allow else .ok .redirectToLogin

/-- Modelled from the spec: the login page is not under `src/`; per §4.4
and Scenario C it redirects to the authenticated home when a credential is
present (mere presence of the stored token) and renders otherwise. -/
def loginGuard (w : Bool) (st : Storage) : Decision :=
  if (getToken w st).isSome then .redirectToHome else .allow

/-- The navigation-time route guard over the repository's routes: the
protected dashboard area runs the dashboard page's guard, the login path
runs the (spec-modelled) login guard, every other path renders with no
guard at all. -/
def routeGuard (path : String) (w : Bool) (st : Storage) : Except String Decision :=
  if isProtectedPath path then dashboardGuard w st
  else if path = "/login" then .ok (loginGuard w st)
  else .ok .allow

/-! ### `handleSendEmail` of the dashboard page -/

/-- The server's response to the `/email/send-custom` fetch: its HTTP
status and the `error` field of its JSON body (if any). -/
structure EmailResponse where
  status : Nat
  errorField : Option String

/-- Observable outcome of one `handleSendEmail` run: whether a network
request was issued, the final success / error messages, and the storage
afterwards. -/
structure EmailOutcome where
  networkRequested : Bool
  emailSuccess : Option String
  emailError : Option String
  store : Storage

/-- `handleSendEmail` of `DashboardPage`: reads the token, throws
`Not authenticated` (caught into the error message) before any fetch when
the token is falsy; otherwise performs the request, reporting success on a
2xx status and otherwise the body's `error` field (or the generic message
when that field is absent or falsy).  The storage is threaded through
unchanged, as the handler never writes to it. -/
def handleSendEmail (w : Bool) (st : Storage) (resp : EmailResponse) : EmailOutcome :=
  match getToken w st with
  | none => ⟨false, none, some "Not authenticated", st⟩
  | some t =>
    if t = "" then ⟨false, none, some "Not authenticated", st⟩
    else if 200 ≤ resp.status ∧ resp.status < 300 then
      ⟨true, some "Email sent successfully!", none, st⟩
    else
      ⟨true, none,
        some (match resp.errorField with
          | some e => if e = "" then "Failed to send email" else e
          | none => "Failed to send email"), st⟩

/-! ### Lemmas about the JSON codec -/

/-- Decoding a hexadecimal digit emitted by `hexDigitChar` recovers the
digit. -/
theorem hexVal_hexDigitChar : ∀ m, m < 16 → hexVal (hexDigitChar m) = some m := by
  decide

/-- Parsing one escaped character prepends that character to whatever the
rest of the string body parses to. -/
theorem parseStringBody_escape (c : Char) (t : List Char) :
    parseStringBody (escapeChar c ++ t)
      = (parseStringBody t).map (fun p => (c :: p.1, p.2)) := by
  by_cases h1 : c = quoteC
  · subst h1
    rw [show escapeChar quoteC ++ t = backslashC :: quoteC :: t from rfl,
      parseStringBody.eq_def]
    simp [show ¬(backslashC = quoteC) from by decide]
  by_cases h2 : c = backslashC
  · subst h2
    rw [show escapeChar backslashC ++ t = backslashC :: backslashC :: t from rfl,
      parseStringBody.eq_def]
    simp [show ¬(backslashC = quoteC) from by decide]
  by_cases h3 : c.toNat = 8
  · have hc : c = Char.ofNat 8 := by rw [← h3, Char.ofNat_toNat]
    subst hc
    rw [show escapeChar (Char.ofNat 8) ++ t = backslashC :: 'b' :: t from rfl,
      parseStringBody.eq_def]
    simp [show ¬(backslashC = quoteC) from by decide, show ¬('b' = quoteC) from by decide,
      show ¬('b' = backslashC) from by decide, show ¬('b' = '/') from by decide]
  by_cases h4 : c.toNat = 9
  · have hc : c = Char.ofNat 9 := by rw [← h4, Char.ofNat_toNat]
    subst hc
    rw [show escapeChar (Char.ofNat 9) ++ t = backslashC :: 't' :: t from rfl,
      parseStringBody.eq_def]
    simp [show ¬(backslashC = quoteC) from by decide, show ¬('t' = quoteC) from by decide,
      show ¬('t' = backslashC) from by decide, show ¬('t' = '/') from by decide,
      show ¬('t' = 'b') from by decide]
  by_cases h5 : c.toNat = 10
  · have hc : c = Char.ofNat 10 := by rw [← h5, Char.ofNat_toNat]
    subst hc
    rw [show escapeChar (Char.ofNat 10) ++ t = backslashC :: 'n' :: t from rfl,
      parseStringBody.eq_def]
    simp [show ¬(backslashC = quoteC) from by decide, show ¬('n' = quoteC) from by decide,
      show ¬('n' = backslashC) from by decide, show ¬('n' = '/') from by decide,
      show ¬('n' = 'b') from by decide, show ¬('n' = 't') from by decide]
  by_cases h6 : c.toNat = 12
  · have hc : c = Char.ofNat 12 := by rw [← h6, Char.ofNat_toNat]
    subst hc
    rw [show escapeChar (Char.ofNat 12) ++ t = backslashC :: 'f' :: t from rfl,
      parseStringBody.eq_def]
    simp [show ¬(backslashC = quoteC) from by decide, show ¬('f' = quoteC) from by decide,
      show ¬('f' = backslashC) from by decide, show ¬('f' = '/') from by decide,
      show ¬('f' = 'b') from by decide, show ¬('f' = 't') from by decide,
      show ¬('f' = 'n') from by decide]
  by_cases h7 : c.toNat = 13
  · have hc : c = Char.ofNat 13 := by rw [← h7, Char.ofNat_toNat]
    subst hc
    rw [show escapeChar (Char.ofNat 13) ++ t = backslashC :: 'r' :: t from rfl,
      parseStringBody.eq_def]
    simp [show ¬(backslashC = quoteC) from by decide, show ¬('r' = quoteC) from by decide,
      show ¬('r' = backslashC) from by decide, show ¬('r' = '/') from by decide,
      show ¬('r' = 'b') from by decide, show ¬('r' = 't') from by decide,
      show ¬('r' = 'n') from by decide, show ¬('r' = 'f') from by decide]
  by_cases h8 : c.toNat < 32
  · have he : escapeChar c ++ t
        = backslashC :: 'u' :: '0' :: '0' ::
            hexDigitChar (c.toNat / 16) :: hexDigitChar (c.toNat % 16) :: t := by
      simp [escapeChar, h1, h2, h3, h4, h5, h6, h7, h8]
    rw [he, parseStringBody.eq_def]
    have e1 : hexVal (hexDigitChar (c.toNat / 16)) = some (c.toNat / 16) :=
      hexVal_hexDigitChar _ (by omega)
    have e2 : hexVal (hexDigitChar (c.toNat % 16)) = some (c.toNat % 16) :=
      hexVal_hexDigitChar _ (by omega)
    simp only [show ¬(backslashC = quoteC) from by decide, show ¬('u' = quoteC) from by decide,
      show ¬('u' = backslashC) from by decide, show ¬('u' = '/') from by decide,
      show ¬('u' = 'b') from by decide, show ¬('u' = 't') from by decide,
      show ¬('u' = 'n') from by decide, show ¬('u' = 'f') from by decide,
      show ¬('u' = 'r') from by decide, show hexVal '0' = some 0 from by decide,
      e1, e2, if_false, if_true, ite_false, ite_true, eq_self_iff_true, not_false_iff]
    simp only [show ∀ a b : Nat, 4096 * 0 + 256 * 0 + 16 * a + b = 16 * a + b from by omega]
    simp only [show 16 * (c.toNat / 16) + c.toNat % 16 = c.toNat from by omega,
      Char.ofNat_toNat]
  · have he : escapeChar c ++ t = c :: t := by
      simp [escapeChar, h1, h2, h3, h4, h5, h6, h7, h8]
    rw [he, parseStringBody.eq_def]
    simp [h1, h2]

/-- Parsing the escaped form of a whole character list, up to the closing
quote, recovers the list. -/
theorem parseStringBody_escapeList (l : List Char) (t : List Char) :
    parseStringBody (escapeList l ++ quoteC :: t) = some (l, t) := by
  induction l with
  | nil =>
    rw [show escapeList [] ++ quoteC :: t = quoteC :: t from rfl, parseStringBody.eq_def]
    simp
  | cons c l ih =>
    rw [show escapeList (c :: l) = escapeChar c ++ escapeList l from rfl,
      List.append_assoc, parseStringBody_escape, ih]
    rfl

/-- Head unfolding of `parseValue` on a string literal. -/
theorem parseValue_quoteHead (f : Nat) (cs : List Char) :
    parseValue (f + 1) (quoteC :: cs)
      = (match parseStringBody cs with
         | some (l, r) => some (Json.str ⟨l⟩, r)
         | none => none) := rfl

/-- Head unfolding of `parseValue` on an object literal. -/
theorem parseValue_lbraceHead (f : Nat) (cs : List Char) :
    parseValue (f + 1) (lbraceC :: cs)
      = (match skipWs cs with
         | [] => none
         | c2 :: r2 =>
           if c2 = rbraceC then some (Json.obj [], r2)
           else
             match parseMembers f (c2 :: r2) with
             | some (fs, r) => some (Json.obj fs, r)
             | none => none) := rfl

/-- Head unfolding of `parseMembers` on a quoted key. -/
theorem parseMembers_quoteHead (f : Nat) (cs : List Char) :
    parseMembers (f + 1) (quoteC :: cs)
      = (match parseStringBody cs with
         | none => none
         | some (k, r1) =>
            match skipWs r1 with
            | [] => none
            | c2 :: r2 =>
              if c2 = ':' then
                match parseValue f r2 with
                | none => none
                | some (v, r3) =>
                  match skipWs r3 with
                  | [] => none
                  | c3 :: r4 =>
                    if c3 = ',' then
                      match parseMembers f r4 with
                      | some (fs, r5) => some ((⟨k⟩, v) :: fs, r5)
                      | none => none
                    else if c3 = rbraceC then some ([(⟨k⟩, v)], r4)
                    else none
              else none) := rfl

/-- Parsing a serialized string literal yields exactly that string. -/
theorem parseValue_strValue (f : Nat) (s : String) (t : List Char) :
    parseValue (f + 1) (quoteC :: (escapeList s.data ++ quoteC :: t))
      = some (Json.str s, t) := by
  rw [parseValue_quoteHead, parseStringBody_escapeList]

/-- Parsing one serialized `"key":"value"` member followed by a comma
prepends the pair to whatever the remaining members parse to. -/
theorem parseMembers_consField (f : Nat) (k v : String) (rest : List Char) :
    parseMembers (f + 1 + 1)
        (quoteC :: (escapeList k.data ++ quoteC :: ':' ::
          (quoteC :: (escapeList v.data ++ quoteC :: ',' :: rest))))
      = (parseMembers (f + 1) rest).map (fun p => ((k, Json.str v) :: p.1, p.2)) := by
  rw [parseMembers_quoteHead, parseStringBody_escapeList]
  simp only [skipWs, show isWsChar ':' = false from by decide, Bool.false_eq_true,
    if_false, ite_true, eq_self_iff_true]
  rw [parseValue_strValue]
  simp only [skipWs, show isWsChar ',' = false from by decide, Bool.false_eq_true,
    if_false, ite_true, eq_self_iff_true]
  cases parseMembers (f + 1) rest <;> rfl

/-- Parsing the final serialized `"key":"value"` member followed by the
closing brace ends the member list. -/
theorem parseMembers_lastField (f : Nat) (k v : String) (rest : List Char) :
    parseMembers (f + 1 + 1)
        (quoteC :: (escapeList k.data ++ quoteC :: ':' ::
          (quoteC :: (escapeList v.data ++ quoteC :: rbraceC :: rest))))
      = some ([(k, Json.str v)], rest) := by
  rw [parseMembers_quoteHead, parseStringBody_escapeList]
  simp only [skipWs, show isWsChar ':' = false from by decide, Bool.false_eq_true,
    if_false, ite_true, eq_self_iff_true]
  rw [parseValue_strValue]
  simp only [skipWs, show isWsChar rbraceC = false from by decide,
    show ¬(rbraceC = ',') from by decide, Bool.false_eq_true, if_false,
    ite_true, eq_self_iff_true, ite_false]

/-- Parsing the full serialization of a `User` recovers exactly its JSON
object (with the closing brace consuming the rest of the input). -/
theorem parseValue_userObject (f : Nat) (u : User) :
    parseValue (f + 1 + 1 + 1 + 1 + 1 + 1 + 1) (userStringify u).data
      = some (userToJson u, []) := by
  show parseValue (f + 1 + 1 + 1 + 1 + 1 + 1 + 1)
      (lbraceC :: (strFieldsChars
        [("id", u.id), ("name", u.name), ("email", u.email),
         ("role", u.role), ("orgId", u.orgId)] ++ [rbraceC])) = _
  rw [parseValue_lbraceHead]
  simp only [strFieldsChars, quoteChars, List.cons_append, List.append_assoc,
    List.singleton_append, List.nil_append]
  simp only [skipWs, show isWsChar quoteC = false from by decide,
    Bool.false_eq_true, if_false,
    show ¬(quoteC = rbraceC) from by decide, ite_false]
  rw [parseMembers_consField (f + 1 + 1 + 1 + 1), parseMembers_consField (f + 1 + 1 + 1),
    parseMembers_consField (f + 1 + 1), parseMembers_consField (f + 1),
    parseMembers_lastField f]
  simp [userToJson]

/-- `JSON.parse` inverts `JSON.stringify` on serialized users. -/
theorem jsonParse_userStringify (u : User) :
    jsonParse (userStringify u) = some (userToJson u) := by
  unfold jsonParse
  rw [show 2 * (userStringify u).data.length + 16
      = 2 * (userStringify u).data.length + 9 + 1 + 1 + 1 + 1 + 1 + 1 + 1 from by omega]
  rw [parseValue_userObject]
  rfl

/-! ### Lemmas about the store and session operations -/

/-- The serialized form of a user is never the empty string. -/
theorem userStringify_ne_empty (u : User) : userStringify u ≠ "" := by
  intro h
  have := congrArg String.data h
  simp [userStringify] at this

/-- After `establish` the stored token is exactly the credential. -/
theorem getToken_establish (st : Storage) (c : String) (p : User) :
    getToken true (establish true st c p) = some c := by
  simp [getToken, establish, setUser, setToken, getItem, setItem,
    show ¬("token" = "user") from by decide]

/-- After `establish` the stored profile reads back as exactly the
serialized user's JSON object. -/
theorem getUser_establish (st : Storage) (c : String) (p : User) :
    getUser true (establish true st c p) = Except.ok (some (userToJson p)) := by
  simp only [getUser, establish, setUser, setToken, getItem, setItem, if_true,
    eq_self_iff_true, ite_true]
  rw [if_neg (userStringify_ne_empty p), jsonParse_userStringify]

/-- After `logout` no token is stored (with or without a window). -/
theorem getToken_logout (w : Bool) (st : Storage) :
    getToken w (logout w st) = none := by
  cases w
  · rfl
  · simp [getToken, logout, removeUser, removeToken, getItem, removeItem,
      show ¬("token" = "user") from by decide]

/-- After `logout` no profile is stored (with or without a window). -/
theorem getUser_logout (w : Bool) (st : Storage) :
    getUser w (logout w st) = Except.ok none := by
  cases w
  · rfl
  · simp [getUser, logout, removeUser, removeToken, getItem, removeItem]

/-! ### The claims -/

/-- C1 counterexample: an authenticated call to the email endpoint that the
server answers with 401 surfaces the server's error message, yet the
credential is still present afterwards and `isAuthenticated` is still
`true` — the session has not transitioned to `Anonymous`, contradicting
the claim. -/
theorem claim_C1_counterexample :
    (handleSendEmail true (setItem emptyStorage "token" "tok123")
        ⟨401, some "Unauthorized"⟩).emailError = some "Unauthorized" ∧
    isAuthenticated true (handleSendEmail true (setItem emptyStorage "token" "tok123")
        ⟨401, some "Unauthorized"⟩).store = true := ⟨rfl, rfl⟩

/-- C1 amended: `handleSendEmail` never mutates the store, for any window
state, storage and server response — in particular a 401 leaves the
credential and profile in place and `isAuthenticated` unchanged; the
session becomes `Anonymous` only through an explicit `logout`. -/
theorem claim_C1_main (w : Bool) (st : Storage) (resp : EmailResponse) :
    (handleSendEmail w st resp).store = st ∧
    isAuthenticated w (handleSendEmail w st resp).store = isAuthenticated w st := by
  have h : (handleSendEmail w st resp).store = st := by
    unfold handleSendEmail
    cases getToken w st
    · rfl
    · dsimp only
      split_ifs <;> rfl
  exact ⟨h, by rw [h]⟩

/-- C2 counterexample: two stores with the same path and the same token
presence (both hold `"tok123"`) — one without a stored profile, one with —
receive different route-guard decisions on `/dashboard`, so the decision
is not a function of (path, credential presence) alone. -/
theorem claim_C2_counterexample :
    getToken true (setItem emptyStorage "token" "tok123") = some "tok123" ∧
    getToken true (setItem (setItem emptyStorage "token" "tok123") "user"
        (userStringify demoUser)) = some "tok123" ∧
    routeGuard "/dashboard" true (setItem emptyStorage "token" "tok123")
      = Except.ok Decision.redirectToLogin ∧
    routeGuard "/dashboard" true (setItem (setItem emptyStorage "token" "tok123") "user"
        (userStringify demoUser)) = Except.ok Decision.allow ∧
    Decision.redirectToLogin ≠ Decision.allow :=
  ⟨rfl, rfl, rfl, rfl, by decide⟩

/-- C2 amended: the dashboard-area guard is a pure function of the stored
profile's resolution — stores on which `getUser` agrees receive identical
decisions — and it is invariant under writing or removing the token, so it
depends on profile presence, not credential presence. -/
theorem claim_C2_main :
    (∀ (w : Bool) (st1 st2 : Storage), getUser w st1 = getUser w st2 →
        dashboardGuard w st1 = dashboardGuard w st2) ∧
    (∀ (w : Bool) (st : Storage) (t : String),
        dashboardGuard w (setToken w st t) = dashboardGuard w st) ∧
    (∀ (w : Bool) (st : Storage),
        dashboardGuard w (removeToken w st) = dashboardGuard w st) := by
  have huser : ∀ (w : Bool) (st1 st2 : Storage), getUser w st1 = getUser w st2 →
      dashboardGuard w st1 = dashboardGuard w st2 := by
    intro w st1 st2 h
    simp [dashboardGuard, h]
  refine ⟨huser, fun w st t => huser _ _ _ ?_, fun w st => huser _ _ _ ?_⟩
  · cases w
    · rfl
    · simp [getUser, setToken, getItem, setItem, show ¬("user" = "token") from by decide]
  · cases w
    · rfl
    · simp [getUser, removeToken, getItem, removeItem,
        show ¬("user" = "token") from by decide]

/-- C2 witness: the invariance theorem applied at concrete stores. -/
theorem claim_C2_witness :
    dashboardGuard true (setItem emptyStorage "token" "t") = dashboardGuard true emptyStorage :=
  claim_C2_main.1 true _ _ rfl

/-- C3 counterexample: on the protected path `/dashboard` with no stored
credential but a stored profile, the code renders (`allow`) where the
claimed decision table demands `redirectToLogin`. -/
theorem claim_C3_counterexample :
    isProtectedPath "/dashboard" = true ∧
    getToken true (setItem emptyStorage "user" (userStringify demoUser)) = none ∧
    routeGuard "/dashboard" true (setItem emptyStorage "user" (userStringify demoUser))
      = Except.ok Decision.allow ∧
    Decision.allow ≠ Decision.redirectToLogin :=
  ⟨rfl, rfl, rfl, by decide⟩

/-- C3 amended: the decision table holds with the protected-path test
keyed on the stored profile instead of the credential: a protected path
with no stored profile yields `redirectToLogin`; the login path with a
credential present yields `redirectToHome` (login page modelled from the
spec); any path that is neither protected nor the login path yields
`allow`. -/
theorem claim_C3_main (path : String) (w : Bool) (st : Storage) :
    (isProtectedPath path = true → getUser w st = Except.ok none →
        routeGuard path w st = Except.ok Decision.redirectToLogin) ∧
    (path = "/login" → (getToken w st).isSome = true →
        routeGuard path w st = Except.ok Decision.redirectToHome) ∧
    (isProtectedPath path = false → ¬path = "/login" →
        routeGuard path w st = Except.ok Decision.allow) := by
  refine ⟨fun hp hu => ?_, fun hp ht => ?_, fun hp hl => ?_⟩
  · simp [routeGuard, hp, dashboardGuard, hu]
  · subst hp
    simp [routeGuard, show isProtectedPath "/login" = false from rfl, loginGuard, ht]
  · simp [routeGuard, hp, hl]

/-- C3 witness: each row of the amended table at a concrete input. -/
theorem claim_C3_witness :
    routeGuard "/dashboard" true emptyStorage = Except.ok Decision.redirectToLogin ∧
    routeGuard "/login" true (setItem emptyStorage "token" "tok123")
      = Except.ok Decision.redirectToHome ∧
    routeGuard "/" true emptyStorage = Except.ok Decision.allow :=
  ⟨(claim_C3_main "/dashboard" true emptyStorage).1 rfl rfl,
   (claim_C3_main "/login" true (setItem emptyStorage "token" "tok123")).2.1 rfl rfl,
   (claim_C3_main "/" true emptyStorage).2.2 rfl (by decide)⟩

/-- C4: an authenticated APIGateway operation invoked with no stored
credential performs no network request and reports the unauthenticated
error. -/
theorem claim_C4_main (w : Bool) (st : Storage) (resp : EmailResponse)
    (h : getToken w st = none) :
    (handleSendEmail w st resp).networkRequested = false ∧
    (handleSendEmail w st resp).emailError = some "Not authenticated" := by
  simp [handleSendEmail, h]

/-- C4 witness: the fail-fast theorem at the empty store. -/
theorem claim_C4_witness :
    (handleSendEmail true emptyStorage ⟨401, none⟩).networkRequested = false ∧
    (handleSendEmail true emptyStorage ⟨401, none⟩).emailError = some "Not authenticated" :=
  claim_C4_main true emptyStorage ⟨401, none⟩ rfl

/-- C5 counterexample: `setToken` alone is a completed store operation
that leaves the credential present and the profile absent — exactly one of
the pair — refuting the claim's "no completed operation leaves exactly one
of the two present". -/
theorem claim_C5_counterexample :
    getToken true (setToken true emptyStorage "tok123") = some "tok123" ∧
    getUser true (setToken true emptyStorage "tok123") = Except.ok none := ⟨rfl, rfl⟩

/-- C5 amended: pairing holds for the composite operations — after
`establish` both credential and profile are present, after `logout` both
are absent — while the primitive operations can break it. -/
theorem claim_C5_main (st : Storage) (c : String) (p : User) :
    getToken true (establish true st c p) = some c ∧
    getUser true (establish true st c p) = Except.ok (some (userToJson p)) ∧
    getToken true (logout true st) = none ∧
    getUser true (logout true st) = Except.ok none :=
  ⟨getToken_establish st c p, getUser_establish st c p,
   getToken_logout true st, getUser_logout true st⟩

/-- C6: with no browser window every read returns absent, every write or
clear is a no-op on the storage, nothing raises, and the system reads as
always anonymous. -/
theorem claim_C6_main (st : Storage) (t : String) (p : User) :
    getToken false st = none ∧
    getUser false st = Except.ok none ∧
    isAuthenticated false st = false ∧
    setToken false st t = st ∧
    setUser false st p = st ∧
    removeToken false st = st ∧
    removeUser false st = st ∧
    logout false st = st :=
  ⟨rfl, rfl, rfl, rfl, rfl, rfl, rfl, rfl⟩

/-- C7 counterexample: establishing with the empty-string credential
stores the profile and reads it back exactly, yet `isAuthenticated` is
`false` — refuting "for every credential c … isAuthenticated() is true". -/
theorem claim_C7_counterexample :
    getUser true (establish true emptyStorage "" demoUser)
      = Except.ok (some (userToJson demoUser)) ∧
    isAuthenticated true (establish true emptyStorage "" demoUser) = false := ⟨rfl, rfl⟩

/-- C7 amended: for every non-empty credential and every profile, reading
immediately after `establish` yields the authenticated state with exactly
the serialized profile, and reading immediately after `logout` yields the
anonymous state unconditionally. -/
theorem claim_C7_main (st : Storage) (c : String) (p : User) (hc : c ≠ "") :
    isAuthenticated true (establish true st c p) = true ∧
    getUser true (establish true st c p) = Except.ok (some (userToJson p)) ∧
    isAuthenticated true (logout true st) = false ∧
    getToken true (logout true st) = none ∧
    getUser true (logout true st) = Except.ok none := by
  refine ⟨?_, getUser_establish st c p, ?_, getToken_logout true st, getUser_logout true st⟩
  · rw [show isAuthenticated true (establish true st c p)
        = (match getToken true (establish true st c p) with
           | some t => decide (t ≠ "")
           | none => false) from rfl, getToken_establish]
    simp [hc]
  · rw [show isAuthenticated true (logout true st)
        = (match getToken true (logout true st) with
           | some t => decide (t ≠ "")
           | none => false) from rfl, getToken_logout]

/-- C7 witness: the round-trip theorem at a concrete credential and the
demo profile. -/
theorem claim_C7_witness :
    isAuthenticated true (establish true emptyStorage "tok123" demoUser) = true ∧
    getUser true (establish true emptyStorage "tok123" demoUser)
      = Except.ok (some (userToJson demoUser)) ∧
    isAuthenticated true (logout true emptyStorage) = false ∧
    getToken true (logout true emptyStorage) = none ∧
    getUser true (logout true emptyStorage) = Except.ok none :=
  claim_C7_main emptyStorage "tok123" demoUser (by decide)

/-- C8: evaluating the read at the failing input — a stored profile entry
holding the non-JSON string `hello` — shows `getUser` propagating the
parse failure (the `SyntaxError` thrown by `JSON.parse`) instead of
returning absent, and the dashboard guard crashing with it. -/
theorem claim_C8_main :
    getUser true (setItem emptyStorage "user" "hello") = Except.error "SyntaxError" ∧
    dashboardGuard true (setItem emptyStorage "user" "hello")
      = Except.error "SyntaxError" := ⟨rfl, rfl⟩

/-- C9: the empty-string token is present for `getToken` yet
`isAuthenticated` is `false`; in general `isAuthenticated` is `true`
exactly when the stored token is a non-null, non-empty string. -/
theorem claim_C9_main :
    getToken true (setToken true emptyStorage "") = some "" ∧
    isAuthenticated true (setToken true emptyStorage "") = false ∧
    (∀ (w : Bool) (st : Storage),
        isAuthenticated w st = true ↔ ∃ t, getToken w st = some t ∧ t ≠ "") := by
  refine ⟨rfl, rfl, fun w st => ?_⟩
  unfold isAuthenticated
  cases getToken w st with
  | none => simp
  | some t => simp

/-- C10: `setToken` and `removeToken` write or delete only the `token`
key and `setUser` and `removeUser` only the `user` key, so each leaves
every other entry — in particular the other member of the pair —
unchanged. -/
theorem claim_C10_main (w : Bool) (st : Storage) (t : String) (p : User) (k : String) :
    (¬k = "token" →
        getItem (setToken w st t) k = getItem st k ∧
        getItem (removeToken w st) k = getItem st k) ∧
    (¬k = "user" →
        getItem (setUser w st p) k = getItem st k ∧
        getItem (removeUser w st) k = getItem st k) := by
  cases w
  · simp [setToken, removeToken, setUser, removeUser]
  · refine ⟨fun h => ⟨?_, ?_⟩, fun h => ⟨?_, ?_⟩⟩ <;>
      simp [setToken, removeToken, setUser, removeUser, getItem, setItem, removeItem, h]

/-- C10 witness: the frame theorem at the two keys of interest. -/
theorem claim_C10_witness :
    (getItem (setToken true emptyStorage "tok123") "user" = getItem emptyStorage "user" ∧
     getItem (removeToken true emptyStorage) "user" = getItem emptyStorage "user") ∧
    (getItem (setUser true emptyStorage demoUser) "token" = getItem emptyStorage "token" ∧
     getItem (removeUser true emptyStorage) "token" = getItem emptyStorage "token") :=
  ⟨(claim_C10_main true emptyStorage "tok123" demoUser "user").1 (by decide),
   (claim_C10_main true emptyStorage "tok123" demoUser "token").2 (by decide)⟩

end DummyFrontend
